import Mathlib

set_option linter.unusedVariables false

/-!
Shallow embedding of `src/app.py` (Media Credibility Hub).

The script defines two helper routines, `analyze_image` and
`analyze_headline`, and a linear page body that renders colored banners
from their scores.

Modelling choices:
* Pixel values and scores are rationals (`ℚ`); claims about the arithmetic
  are stated under exact arithmetic.
* An image is its pixel buffer, a `List ℚ` (the flattened numpy array);
  `np.array(image).mean()` is `npMean`.
* `random.random()` reads a global RNG.  The RNG is modelled as a stream
  `rng : ℕ → ℚ` together with a cursor `k : ℕ`: a draw returns `rng k` and
  advances the cursor.  `analyze_image` takes and returns the cursor,
  making its use of the RNG state explicit.
* The `st.error` / `st.warning` / `st.success` calls are modelled by the
  `Banner` value each block selects.
-/

namespace MediaCredibilityHub

/-- Model of `np.array(image).mean()`: arithmetic mean of the pixel buffer.  For the
empty buffer this is `0` in `ℚ` (numpy yields NaN there, and `NaN > 128` is
false, which agrees with `0 > 128`). -/
def npMean (pixels : List ℚ) : ℚ :=
  pixels.sum / pixels.length

/-- Model of `random.random()`: read the draw at the cursor and advance the cursor. -/
def randomRandom (rng : ℕ → ℚ) (k : ℕ) : ℚ × ℕ :=
  (rng k, k + 1)

/-- The routine `analyze_image` (src/app.py lines 8–26): threshold the pixel mean at
128; below the threshold, flip a coin via `random.random()`.  Returns the
`(label, score)` pair together with the RNG cursor after the call. -/
def analyze_image (image : List ℚ) (rng : ℕ → ℚ) (k : ℕ) :
    (String × ℚ) × ℕ :=
  if npMean image > 128 then
    (("Likely AI-Generated", 2/10), k)
  else
    let d := randomRandom rng k
    if d.1 > 5/10 then
      (("Likely Authentic", 9/10), d.2)
    else
      (("Analysis Inconclusive", 6/10), d.2)

/-- Python's substring test `pat in s`, via character lists. -/
def strContainsSub (s pat : String) : Bool :=
  (List.range (s.data.length + 1)).any
    (fun i => (s.data.drop i).take pat.data.length == pat.data)

/-- Python's `str.lower()` on the ASCII strings of the script. -/
def pyLower (s : String) : String :=
  ⟨s.data.map Char.toLower⟩

/-- The clickbait word list of `analyze_headline` (src/app.py line 35). -/
def clickbait_words : List String :=
  ["shocking", "secret", "unbelievable", "revealed", "what happens next"]

/-- The hardcoded placeholder title of `analyze_headline`
(src/app.py line 38). -/
def placeholder_title : String :=
  "Shocking Secret of AI Revealed by Scientists!"

/-- The routine `analyze_headline` (src/app.py lines 29–43): keyword match of the
clickbait words against the lowercased placeholder title; the `url`
argument is never consulted. -/
def analyze_headline (url : String) : String × ℚ :=
  if clickbait_words.any
      (fun word => strContainsSub (pyLower placeholder_title) word) then
    ("High Sensationalism Detected", 3/10)
  else
    ("Low Sensationalism", 8/10)

/-- Which colored Streamlit banner a block emits. -/
inductive Banner
  | error
  | warning
  | success
deriving DecidableEq, Repr

/-- Banner choice of the image column (src/app.py lines 96–101):
`st.error` below 0.5, `st.warning` below 0.7, else `st.success`. -/
def imageBannerSelect (score : ℚ) : Banner :=
  if score < 5/10 then Banner.error
  else if score < 7/10 then Banner.warning
  else Banner.success

/-- Banner choice of the URL column (src/app.py lines 129–134):
`st.error` below 0.5, `st.warning` below 0.7, else `st.success`. -/
def urlBannerSelect (final_score : ℚ) : Banner :=
  if final_score < 5/10 then Banner.error
  else if final_score < 7/10 then Banner.warning
  else Banner.success

/-- The combined score of the URL column (src/app.py lines 118–124):
`img_score` is the hardcoded placeholder `0.9`, and
`final_score = (img_score + headline_score) / 2`. -/
def urlFinalScore (url : String) : ℚ :=
  (9/10 + (analyze_headline url).2) / 2

/-- The image column (src/app.py lines 89–101): if no file is uploaded
nothing runs; otherwise `analyze_image` is called and a banner selected
from its score.  Returns the banner (if any) and the RNG cursor after the
block. -/
def renderImageColumn (uploaded_file : Option (List ℚ)) (rng : ℕ → ℚ)
    (k : ℕ) : Option Banner × ℕ :=
  match uploaded_file with
  | none => (none, k)
  | some image =>
      let r := analyze_image image rng k
      (some (imageBannerSelect r.1.2), r.2)

/-- The URL column (src/app.py lines 110–134): if the text field is empty
(`if url_input:` is falsy exactly on `""`) nothing runs; otherwise
`analyze_headline` is called, the combined score formed, and a banner
selected from it. -/
def renderUrlColumn (url_input : String) : Option Banner :=
  if url_input = "" then none
  else some (urlBannerSelect (urlFinalScore url_input))

/-- Version of `analyze_image` with every step in an error monad: none of the
operations the Python body performs (numpy conversion and mean, a rational
comparison, `random.random()`) can raise, so every branch ends in
`Except.ok`. -/
def analyze_image_exc (image : List ℚ) (rng : ℕ → ℚ) (k : ℕ) :
    Except String ((String × ℚ) × ℕ) :=
  if npMean image > 128 then
    Except.ok (("Likely AI-Generated", 2/10), k)
  else
    let d := randomRandom rng k
    if d.1 > 5/10 then
      Except.ok (("Likely Authentic", 9/10), d.2)
    else
      Except.ok (("Analysis Inconclusive", 6/10), d.2)

/-- Version of `analyze_headline` with every step in an error monad: string
lowercasing and substring tests cannot raise, so every branch ends in
`Except.ok`. -/
def analyze_headline_exc (url : String) : Except String (String × ℚ) :=
  if clickbait_words.any
      (fun word => strContainsSub (pyLower placeholder_title) word) then
    Except.ok ("High Sensationalism Detected", 3/10)
  else
    Except.ok ("Low Sensationalism", 8/10)

/-- RNG stream for the statefulness counterexample: the first draw is
above 0.5, every later draw below. -/
def rngCE : ℕ → ℚ :=
  fun k => if k = 0 then 6/10 else 4/10

/-! ### Helper lemmas -/

/-- Evaluation fact: `analyze_headline` always takes the clickbait branch: `"shocking"`
occurs in the lowercased placeholder title. -/
lemma analyze_headline_eq (url : String) :
    analyze_headline url = ("High Sensationalism Detected", 3/10) := rfl

lemma npMean_single (q : ℚ) : npMean [q] = q := by
  simp [npMean]

lemma npMean_two_hundred_gt : npMean [200] > 128 := by
  rw [npMean_single]; norm_num

lemma npMean_zero_not_gt : ¬ npMean [(0 : ℚ)] > 128 := by
  rw [npMean_single]; norm_num

lemma npMean_pair_not_gt : ¬ npMean [(5 : ℚ), 7] > 128 := by
  norm_num [npMean]

lemma imageBannerSelect_cases (s : ℚ) :
    (imageBannerSelect s = Banner.error ↔ s < 5/10) ∧
    (imageBannerSelect s = Banner.warning ↔ 5/10 ≤ s ∧ s < 7/10) ∧
    (imageBannerSelect s = Banner.success ↔ 7/10 ≤ s) := by
  unfold imageBannerSelect
  split_ifs with h1 h2 <;>
    refine ⟨?_, ?_, ?_⟩ <;> simp_all [not_lt] <;> linarith

lemma urlBannerSelect_cases (s : ℚ) :
    (urlBannerSelect s = Banner.error ↔ s < 5/10) ∧
    (urlBannerSelect s = Banner.warning ↔ 5/10 ≤ s ∧ s < 7/10) ∧
    (urlBannerSelect s = Banner.success ↔ 7/10 ≤ s) := by
  unfold urlBannerSelect
  split_ifs with h1 h2 <;>
    refine ⟨?_, ?_, ?_⟩ <;> simp_all [not_lt] <;> linarith

/-! ### Claim theorems -/

/-- C1: `analyze_image` compares the mean pixel value with 128: above the
threshold it returns `("Likely AI-Generated", 0.2)`; otherwise it returns
`("Likely Authentic", 0.9)` when the random draw exceeds 0.5 and
`("Analysis Inconclusive", 0.6)` otherwise, for every input image. -/
theorem analyze_image_matches_claimed_cases :
    ∀ (image : List ℚ) (rng : ℕ → ℚ) (k : ℕ),
      (analyze_image image rng k).1 =
        if npMean image > 128 then ("Likely AI-Generated", (2/10 : ℚ))
        else if rng k > 5/10 then ("Likely Authentic", 9/10)
        else ("Analysis Inconclusive", 6/10) := by
  intro image rng k
  by_cases h : npMean image > 128
  · simp [analyze_image, h]
  · by_cases h2 : rng k > 5/10 <;>
      simp [analyze_image, randomRandom, h, h2]

/-- C2: in both output blocks, the red error banner is selected iff the
score is below 0.5, the yellow warning banner iff it is in [0.5, 0.7), and
the green success banner iff it is at least 0.7. -/
theorem banner_threshold_bands :
    ∀ s : ℚ,
      ((imageBannerSelect s = Banner.error ↔ s < 5/10) ∧
       (imageBannerSelect s = Banner.warning ↔ 5/10 ≤ s ∧ s < 7/10) ∧
       (imageBannerSelect s = Banner.success ↔ 7/10 ≤ s)) ∧
      ((urlBannerSelect s = Banner.error ↔ s < 5/10) ∧
       (urlBannerSelect s = Banner.warning ↔ 5/10 ≤ s ∧ s < 7/10) ∧
       (urlBannerSelect s = Banner.success ↔ 7/10 ≤ s)) := by
  intro s
  exact ⟨imageBannerSelect_cases s, urlBannerSelect_cases s⟩

/-- C3: `analyze_headline` never uses its URL argument: any two URLs give
the same `(label, score)` pair. -/
theorem analyze_headline_ignores_url :
    ∀ u1 u2 : String, analyze_headline u1 = analyze_headline u2 := by
  intro u1 u2
  rfl

/-- C4 counterexample: `analyze_image` is not stateless.  With the pixel
mean at most 128, two successive calls with the very same image argument
(the second starting from the RNG cursor the first call left behind)
return different `(label, score)` pairs. -/
theorem analyze_image_statefulness_counterexample :
    (analyze_image [0] rngCE 0).1 ≠
      (analyze_image [0] rngCE ((analyze_image [0] rngCE 0).2)).1 := by
  norm_num [analyze_image, npMean, randomRandom, rngCE]

/-- C4 (amended): `analyze_headline` is pure and stateless, and
`analyze_image` is deterministic in the image and the draw it reads: two
calls on the same image reading equal draws return the same pair, and when
the image's pixel mean exceeds 128 the RNG cursor is untouched and an
immediate repeat call returns the same pair; but a call with mean at most
128 advances the RNG cursor, so two successive calls with the same
argument may differ. -/
theorem analyze_routines_purity_amended :
    (∀ u1 u2 : String, analyze_headline u1 = analyze_headline u2) ∧
    (∀ (image : List ℚ) (rng1 rng2 : ℕ → ℚ) (k1 k2 : ℕ),
      rng1 k1 = rng2 k2 →
      (analyze_image image rng1 k1).1 = (analyze_image image rng2 k2).1) ∧
    (∀ (image : List ℚ) (rng : ℕ → ℚ) (k : ℕ),
      npMean image > 128 →
      (analyze_image image rng k).2 = k ∧
      (analyze_image image rng ((analyze_image image rng k).2)).1 =
        (analyze_image image rng k).1) := by
  refine ⟨fun u1 u2 => rfl, ?_, ?_⟩
  · intro image rng1 rng2 k1 k2 hdraw
    by_cases h : npMean image > 128
    · simp [analyze_image, h]
    · by_cases h2 : rng1 k1 > 5/10 <;>
        simp [analyze_image, randomRandom, h, ← hdraw, h2]
  · intro image rng k h
    simp [analyze_image, h]

/-- C4 witness for the amended statement: concrete instances of the
equal-draw case and of the mean-above-128 case. -/
theorem analyze_routines_purity_amended_witness :
    (analyze_image [0] (fun _ => 6/10) 0).1 =
      (analyze_image [0] (fun _ => 6/10) 3).1 ∧
    (analyze_image [200] rngCE 0).2 = 0 ∧
    (analyze_image [200] rngCE ((analyze_image [200] rngCE 0).2)).1 =
      (analyze_image [200] rngCE 0).1 :=
  ⟨analyze_routines_purity_amended.2.1 [0] (fun _ => 6/10) (fun _ => 6/10)
      0 3 rfl,
   analyze_routines_purity_amended.2.2 [200] rngCE 0 npMean_two_hundred_gt⟩

/-- C5: every score the program produces lies in [0, 1]: the image score,
the headline score, and the combined URL-column score. -/
theorem scores_within_unit_interval :
    (∀ (image : List ℚ) (rng : ℕ → ℚ) (k : ℕ),
      0 ≤ (analyze_image image rng k).1.2 ∧
      (analyze_image image rng k).1.2 ≤ 1) ∧
    (∀ url : String,
      0 ≤ (analyze_headline url).2 ∧ (analyze_headline url).2 ≤ 1) ∧
    (∀ url : String, 0 ≤ urlFinalScore url ∧ urlFinalScore url ≤ 1) := by
  refine ⟨?_, ?_, ?_⟩
  · intro image rng k
    by_cases h : npMean image > 128
    · simp [analyze_image, h]; norm_num
    · by_cases h2 : rng k > 5/10 <;>
        simp [analyze_image, randomRandom, h, h2] <;> norm_num
  · intro url
    rw [analyze_headline_eq]
    norm_num
  · intro url
    unfold urlFinalScore
    rw [analyze_headline_eq]
    norm_num

/-- C6: for every URL, `analyze_headline` returns exactly
`("High Sensationalism Detected", 0.3)`, because the lowercased
placeholder title contains a clickbait word; the
`("Low Sensationalism", 0.8)` branch is unreachable. -/
theorem analyze_headline_always_sensational :
    ∀ url : String,
      analyze_headline url = ("High Sensationalism Detected", 3/10) ∧
      analyze_headline url ≠ ("Low Sensationalism", 8/10) := by
  intro url
  refine ⟨analyze_headline_eq url, ?_⟩
  rw [analyze_headline_eq]
  simp

/-- C7: for every URL, the combined score of the URL column is exactly
`(0.9 + 0.3) / 2 = 0.6` under exact arithmetic, and for every non-empty
URL input the column renders the MEDIUM (yellow warning) banner; the LOW
and HIGH banners are unreachable. -/
theorem url_column_always_medium :
    ∀ url : String,
      urlFinalScore url = 6/10 ∧
      (url ≠ "" → renderUrlColumn url = some Banner.warning) := by
  intro url
  have hscore : urlFinalScore url = 6/10 := by
    unfold urlFinalScore
    rw [analyze_headline_eq]
    norm_num
  refine ⟨hscore, fun hne => ?_⟩
  unfold renderUrlColumn
  rw [if_neg hne, hscore]
  unfold urlBannerSelect
  norm_num

/-- C7 witness: a concrete non-empty URL renders the yellow warning
banner. -/
theorem url_column_always_medium_witness :
    renderUrlColumn "http://example.com" = some Banner.warning :=
  (url_column_always_medium "http://example.com").2 (by decide)

/-- C8: neither scoring routine has an error condition: with every step of
each routine lifted into an error monad, every input yields `Except.ok` of
the pure result. -/
theorem analyze_routines_never_error :
    (∀ (image : List ℚ) (rng : ℕ → ℚ) (k : ℕ),
      analyze_image_exc image rng k = Except.ok (analyze_image image rng k)) ∧
    (∀ url : String,
      analyze_headline_exc url = Except.ok (analyze_headline url)) := by
  constructor
  · intro image rng k
    simp only [analyze_image_exc, analyze_image, randomRandom]
    split_ifs <;> rfl
  · intro url
    rfl

/-- C9: analysis is skipped exactly on absent input: with no uploaded file
the image column renders no banner and leaves the RNG untouched, with an
uploaded file it always renders a banner, and the URL column renders a
banner iff the text field is non-empty. -/
theorem absent_input_skips_analysis :
    (∀ (rng : ℕ → ℚ) (k : ℕ), renderImageColumn none rng k = (none, k)) ∧
    (∀ (uploaded_file : Option (List ℚ)) (rng : ℕ → ℚ) (k : ℕ),
      (renderImageColumn uploaded_file rng k).1.isSome = true ↔
        uploaded_file.isSome = true) ∧
    (∀ url_input : String,
      (renderUrlColumn url_input).isSome = true ↔ url_input ≠ "") := by
  refine ⟨fun rng k => rfl, ?_, ?_⟩
  · intro uploaded_file rng k
    cases uploaded_file <;> simp [renderImageColumn]
  · intro url_input
    by_cases h : url_input = "" <;> simp [renderUrlColumn, h]

/-- C10: the result of `analyze_image` depends only on the truth value of
the mean-above-128 comparison and on the draw read: two images agreeing on
that truth value, with equal draws, give identical `(label, score)`
pairs. -/
theorem analyze_image_threshold_noninterference :
    ∀ (img1 img2 : List ℚ) (rng1 rng2 : ℕ → ℚ) (k1 k2 : ℕ),
      ((npMean img1 > 128) ↔ (npMean img2 > 128)) →
      rng1 k1 = rng2 k2 →
      (analyze_image img1 rng1 k1).1 = (analyze_image img2 rng2 k2).1 := by
  intro img1 img2 rng1 rng2 k1 k2 hmean hdraw
  by_cases h : npMean img1 > 128
  · simp [analyze_image, h, hmean.mp h]
  · have h' : ¬ npMean img2 > 128 := fun hc => h (hmean.mpr hc)
    by_cases h2 : rng1 k1 > 5/10 <;>
      simp [analyze_image, randomRandom, h, h', ← hdraw, h2]

/-- C10 witness: two different images on the same side of the threshold,
with equal draws, give the same pair. -/
theorem analyze_image_threshold_noninterference_witness :
    (analyze_image [0] (fun _ => 6/10) 0).1 =
      (analyze_image [5, 7] (fun _ => 6/10) 3).1 :=
  analyze_image_threshold_noninterference [0] [5, 7]
    (fun _ => 6/10) (fun _ => 6/10) 0 3
    (by constructor <;> intro h <;>
      [exact absurd h npMean_zero_not_gt; exact absurd h npMean_pair_not_gt])
    rfl

end MediaCredibilityHub
